import Mathlib

/-!
# Verification of the DB-GPT authentication & authorization core

Shallow embedding of the auth-related parts of the `db-gpt` repository:
the SQL migration `assets/schema/upgrade/v0_8_0/auth_tables_up.sql` /
`auth_tables_down.sql`, the admin user-management page
`web/pages/admin/users.tsx`, the app shell auth check and the login page
in `web/pages/_app.tsx`, together with the operations of the auth core
(session validation, registration, database-access grants) that the
design document specifies.  Pure functions of the source are translated
into Lean functions; browser side effects become explicit effect lists;
SQL tables become lists of row structures.
-/

/-- The four-flag capability record `{chat, explore, construct, admin}` of a
role, as stored in the `permissions` column of `dbgpt_serve_auth_roles`. -/
structure Permissions where
  chat : Bool
  explore : Bool
  construct : Bool
  admin : Bool
deriving DecidableEq, Repr

/-- The shape of `result.data.user` returned by `GET /api/v1/auth/me`, as
consumed by `checkAdminAccess` in `web/pages/admin/users.tsx` (only the
`is_superuser` field is inspected there). -/
structure MeUser where
  is_superuser : Bool
deriving DecidableEq, Repr

/-- Result of the `fetch('/api/v1/auth/me')` call in `checkAdminAccess`:
either the fetch threw (network error), or a response arrived with its
`ok` flag and the optional `data.user` / `data.permissions` payload
(optional because the JS reads them with `?.`). -/
inductive MeFetchResult where
  | fetchError
  | response (ok : Bool) (user : Option MeUser) (perms : Option Permissions)
deriving DecidableEq, Repr

/-- Outcome of the admin-access check on `/admin/users`: either the page is
admitted and loads its data (`loadUsers(); loadDatabases()`), or the user is
shown an error message and sent to `/`, or the caller is sent to `/login`. -/
inductive AdminCheckOutcome where
  | loadData
  | redirectHome (errorMsg : String)
  | redirectLogin
deriving DecidableEq, Repr

/-- `checkAdminAccess` from `web/pages/admin/users.tsx` (lines 37-66):
fetches `/api/v1/auth/me`; on an ok response rejects with
`message.error('Admin access required'); router.push('/')` when
`!user?.is_superuser && !permissions?.admin`, otherwise falls through to
`loadUsers(); loadDatabases()`; on a non-ok response or a thrown fetch it
does `router.push('/login')`. -/
def checkAdminAccess (r : MeFetchResult) : AdminCheckOutcome :=
  match r with
  | .fetchError => .redirectLogin
  | .response ok user perms =>
    if ok then
      if !(user.elim false (·.is_superuser)) && !(perms.elim false (·.admin)) then
        .redirectHome "Admin access required"
      else
        .loadData
    else
      .redirectLogin

/-- The `user?.is_superuser` test of the JS, with optional chaining: an
absent user is not a superuser. -/
def optUserSuper (user : Option MeUser) : Bool :=
  user.elim false (·.is_superuser)

/-- The `permissions?.admin` test of the JS, with optional chaining: an
absent permission record carries no admin flag. -/
def optPermsAdmin (perms : Option Permissions) : Bool :=
  perms.elim false (·.admin)

/-- The error taxonomy of the auth core (spec §7). -/
inductive AuthError where
  | invalidInput
  | conflict
  | unauthorized
  | forbidden
  | notFound
deriving DecidableEq, Repr

/-- A row of `dbgpt_serve_auth_roles`, with its `permissions` column already
parsed into the four-flag record. -/
structure RoleRow where
  name : String
  description : String
  permissions : Permissions
deriving DecidableEq, Repr

/-- The `permissions` JSON seeded for the `user` role in
`auth_tables_up.sql` line 65: chat and explore true, construct and
admin false. -/
def userRolePermissions : Permissions :=
  { chat := true, explore := true, construct := false, admin := false }

/-- The `permissions` JSON seeded for the `admin` role in
`auth_tables_up.sql` line 66: all four flags true. -/
def adminRolePermissions : Permissions :=
  { chat := true, explore := true, construct := true, admin := true }

/-- The two role rows inserted by the `INSERT OR IGNORE` seed of
`auth_tables_up.sql` lines 64-66. -/
def seededRoles : List RoleRow :=
  [ { name := "user",
      description := "Regular user with chat and explore access",
      permissions := userRolePermissions },
    { name := "admin",
      description := "Administrator with full access",
      permissions := adminRolePermissions } ]

/-- The capabilities a role record can be queried for. -/
inductive Capability where
  | chat
  | explore
  | construct
  | admin
deriving DecidableEq, Repr

/-- Reads one flag out of a permission record. -/
def hasCapability (p : Permissions) : Capability → Bool
  | .chat => p.chat
  | .explore => p.explore
  | .construct => p.construct
  | .admin => p.admin

/-- A user account as stored in `dbgpt_serve_auth_users`, with the
`role_id` foreign key resolved to the referenced role's name (the two
bootstrap role rows are the only roles; spec §3 makes them immutable). -/
structure AuthUser where
  id : Nat
  username : String
  email : String
  password_hash : String
  salt : String
  full_name : Option String
  is_active : Bool
  is_superuser : Bool
  roleName : String
deriving DecidableEq, Repr

/-- Looks up a role row by name among the bootstrap roles. -/
def findRole (name : String) : Option RoleRow :=
  seededRoles.find? (fun r => r.name == name)

/-- Modelled from the spec: §4.4 `effectivePermissions(user)` — the
Permission Evaluator resolves the user's role to its fixed matrix row
(none when the role is unknown); the superuser flag does not enter. The
evaluator itself is backend code absent from the source tree. -/
def effectivePermissions (u : AuthUser) : Option Permissions :=
  (findRole u.roleName).map (·.permissions)

/-- Modelled from the spec: §4.4 `requireCapability(user, capability)` —
fails `Forbidden` when the capability flag is absent from the user's
effective permissions. The evaluator itself is backend code absent from
the source tree. -/
def requireCapability (u : AuthUser) (c : Capability) : Except AuthError Unit :=
  match effectivePermissions u with
  | some p => if hasCapability p c then .ok () else .error .forbidden
  | none => .error .forbidden

/-- The `password_hash` literal seeded for the bootstrap `admin` account in
`auth_tables_up.sql` line 82. -/
def seededAdminPasswordHash : String :=
  "f8c2e6b8c5a4d3e9f7b1a2c8d4e5f6g7h8i9j0k1l2m3n4o5p6q7r8s9t0u1v2w3x4y5z6"

/-- The `salt` literal seeded for the bootstrap `admin` account in
`auth_tables_up.sql` line 83. -/
def seededAdminSalt : String :=
  "1234567890abcdef1234567890abcdef1234567890abcdef1234567890abcdef"

/-- The documented default password of the bootstrap `admin` account
(`auth_tables_up.sql` line 68). -/
def seededAdminPassword : String := "dbgpt2024"

/-- Whether a character is a lowercase hexadecimal digit. -/
def isLowerHexDigit (c : Char) : Bool :=
  (decide ('0' ≤ c) && decide (c ≤ '9')) || (decide ('a' ≤ c) && decide (c ≤ 'f'))

/-- Whether a string is a valid lowercase hex encoding of a SHA-256 digest:
exactly 64 characters, each a digit 0-9 or letter a-f. -/
def isHexSha256 (s : String) : Bool :=
  s.length == 64 && s.data.all isLowerHexDigit

/-- The lowercase hex character for a value below 16 (48 is the code of
`0`, and 87 + n lands in `a`-`f` for n between 10 and 15). -/
def hexDigitChar (n : Nat) : Char :=
  Char.ofNat (if n < 10 then 48 + n else 87 + n)

/-- The two lowercase hex characters encoding one byte. -/
def hexEncodeByte (b : Nat) : List Char :=
  [hexDigitChar (b / 16), hexDigitChar (b % 16)]

/-- Lowercase hex encoding of a byte string. -/
def hexEncode (bytes : List Nat) : String :=
  ⟨(bytes.map hexEncodeByte).flatten⟩

/-- Whether a byte list is a 256-bit digest: 32 bytes, each below 256. -/
def isSha256Digest (bytes : List Nat) : Bool :=
  bytes.length == 32 && bytes.all (· < 256)

/-- Modelled from the spec: §4.2 `verify(plaintext, hash, salt)` of the
Password Hasher (backend code absent from the source tree) — recomputes
the derivation `pbkdf2_hmac('sha256', plaintext, salt, 100000)` stated in
`auth_tables_up.sql` line 70 and compares its hex encoding with the stored
hash. The key-derivation function itself is abstracted as a parameter
`kdf` producing the raw digest bytes. -/
def verifyPassword (kdf : String → String → List Nat)
    (plaintext salt storedHash : String) : Bool :=
  hexEncode (kdf plaintext salt) == storedHash

/-- A row of `dbgpt_serve_auth_sessions` (`auth_tables_up.sql` lines
49-61): the opaque unique `session_id`, the owning user, the signed token
(`jwt_token`), the expiry instant, and the active flag. Client metadata
columns are omitted; timestamps are Nat instants. -/
structure SessionRow where
  session_id : String
  user_id : Nat
  jwt_token : String
  expires_at : Nat
  is_active : Bool
deriving DecidableEq, Repr

/-- Modelled from the spec: §4.3 `validate(token)` of the Session Manager
(backend code absent from the source tree) — looks up the stored session
whose signed token matches the presented one, then checks `active=true`
and `now < expires_at` on the stored record; any failure (missing row,
deactivation, expiry) yields the same `Unauthorized`, and rejection is
expired-inclusive at the exact expiry instant (§8). On success it returns
the owning user's id. -/
def validate (store : List SessionRow) (token : String) (now : Nat) :
    Except AuthError Nat :=
  match store.find? (fun s => s.jwt_token == token) with
  | none => .error .unauthorized
  | some s =>
    if s.is_active && decide (now < s.expires_at) then .ok s.user_id
    else .error .unauthorized

/-- Modelled from the spec: §4.1 `createUser` of the Credential Store
(backend code absent from the source tree) — fails `Conflict` when the
username or email already exists, leaving the table untouched (the unique
constraints `uk_username` / `uk_email` of `auth_tables_up.sql` lines
29-30 enforced by a transactional insert); otherwise appends the new row.
Returns the resulting table together with the outcome. -/
def createUser (table : List AuthUser) (u : AuthUser) :
    List AuthUser × Except AuthError AuthUser :=
  if table.any (fun v => v.username == u.username || v.email == u.email) then
    (table, .error .conflict)
  else
    (table ++ [u], .ok u)

/-- A row of `dbgpt_serve_auth_user_db_access` (`auth_tables_up.sql` lines
35-46): grantee, database name, granting admin, active flag. The pair
`(user_id, db_name)` is unique (`uk_user_db_access`, line 43). -/
structure GrantRow where
  user_id : Nat
  db_name : String
  granted_by : Nat
  is_active : Bool
deriving DecidableEq, Repr

/-- The rows of a grant table holding the given `(user_id, db_name)` pair. -/
def pairRows (table : List GrantRow) (uid : Nat) (db : String) : List GrantRow :=
  table.filter (fun r => r.user_id == uid && r.db_name == db)

/-- The number of ACTIVE grant rows for a `(user_id, db_name)` pair. -/
def activeGrantCount (table : List GrantRow) (uid : Nat) (db : String) : Nat :=
  (table.filter (fun r => r.user_id == uid && r.db_name == db && r.is_active)).length

/-- The unique constraint `uk_user_db_access` of `auth_tables_up.sql` line
43, as a table invariant: at most one row per `(user_id, db_name)` pair. -/
def grantTableUnique (table : List GrantRow) : Prop :=
  ∀ uid db, (pairRows table uid db).length ≤ 1

/-- Modelled from the spec: §4.5 `grant(granterId, granteeId, dbName)` of
the Database-Access Registry (backend code absent from the source tree) —
fails `Forbidden` unless the granter has the `admin` capability, fails
`NotFound` when the grantee does not exist, and otherwise
inserts-or-reactivates the unique `(grantee, dbName)` row. Returns the
resulting table together with the outcome. `granterPerms` is the granter's
effective permission record and `userIds` the set of existing user ids. -/
def grant (granterPerms : Permissions) (userIds : List Nat)
    (table : List GrantRow) (granterId granteeId : Nat) (dbName : String) :
    List GrantRow × Except AuthError Unit :=
  if !granterPerms.admin then
    (table, .error .forbidden)
  else if !(userIds.contains granteeId) then
    (table, .error .notFound)
  else if table.any (fun r => r.user_id == granteeId && r.db_name == dbName) then
    (table.map (fun r =>
      if r.user_id == granteeId && r.db_name == dbName then
        { r with is_active := true }
      else r), .ok ())
  else
    (table ++ [{ user_id := granteeId, db_name := dbName,
                 granted_by := granterId, is_active := true }], .ok ())

/-- A browser side effect performed by the login / auth-check client code
of `web/pages/_app.tsx`: writes to the two localStorage slots the code
uses (the serialized user info and its validity timestamp), a
`document.cookie` assignment, a toast message, or a router navigation. -/
inductive ClientEffect where
  | storeUserInfo (serializedUser : String)
  | storeValidTime (nowMs : Nat)
  | setCookie (name value path : String) (maxAge : Nat)
  | messageSuccess (m : String)
  | messageError (m : String)
  | routerPush (target : String)
deriving DecidableEq, Repr

/-- The `result.data` payload of `POST /api/v1/auth/login` as read by
`handleLogin` in `web/pages/_app.tsx`: the inner `success` flag, the user
object (kept abstract as its serialization), the optional opaque
`session_id`, the optional signed token, and the optional failure
message. -/
structure LoginData where
  success : Bool
  user : String
  session_id : Option String
  token : Option String
  message : Option String
deriving DecidableEq, Repr

/-- The whole JSON body of the login response: outer `success` flag and
optional `data`. -/
structure LoginResult where
  success : Bool
  data : Option LoginData
deriving DecidableEq, Repr

/-- `handleLogin` from the login page in `web/pages/_app.tsx` (lines
194-233), as the list of browser effects it performs on a parsed response:
when `result.success && result.data?.success`, it stores the user info and
`Date.now()` in localStorage, sets the `dbgpt_auth_session` cookie to the
session id with `path=/; max-age=${30 * 24 * 60 * 60}` (only if
`session_id` is truthy), shows a success toast and navigates to the
redirect target (defaulting to `/`); otherwise it shows
`result.data?.message || 'Login failed'`. -/
def handleLogin (result : LoginResult) (nowMs : Nat)
    (redirectQuery : Option String) : List ClientEffect :=
  if result.success && (result.data.elim false (·.success)) then
    match result.data with
    | some d =>
      [ .storeUserInfo d.user, .storeValidTime nowMs ] ++
      (match d.session_id with
       | some sid => [.setCookie "dbgpt_auth_session" sid "/" (30 * 24 * 60 * 60)]
       | none => []) ++
      [ .messageSuccess "Login successful",
        .routerPush (redirectQuery.getD "/") ]
    | none => []
  else
    [ .messageError ((result.data.bind (·.message)).getD "Login failed") ]

/-- Replaces the token field of a login response, leaving everything else
unchanged. -/
def withToken (result : LoginResult) (t : Option String) : LoginResult :=
  { result with data := result.data.map (fun d => { d with token := t }) }

/-- Observable outcome of the app-shell auth check `handleAuth` in
`web/pages/_app.tsx`: whether a request to `/api/v1/auth/me` was issued,
whether the client ended marked logged in (`setIsLogin(true)`), and
whether it was redirected to the login page. -/
structure AuthCheckState where
  fetchedMe : Bool
  isLogin : Bool
  redirectedToLogin : Bool
deriving DecidableEq, Repr

/-- The cookie-based fallback branch of `handleAuth` (lines 87-107): a
fetch of `/api/v1/auth/me` is issued; when it returns ok with
`result.success && result.data?.user` the client stores the user info and
is logged in, otherwise (non-ok, error, or missing user) it is redirected
to `/login`. `meUser` is the user object delivered by the server, `none`
standing for every failure mode. -/
def handleAuthFetch (meUser : Option String) : AuthCheckState :=
  match meUser with
  | some _ => { fetchedMe := true, isLogin := true, redirectedToLogin := false }
  | none => { fetchedMe := true, isLogin := false, redirectedToLogin := true }

/-- `handleAuth` from `web/pages/_app.tsx` (lines 63-108). On `/login` the
client is marked logged in at once. Otherwise, when both localStorage
slots are present and `Date.now() - parseInt(validTime)` is under 30 days,
the client is marked logged in WITHOUT contacting the server; otherwise it
falls back to the `/api/v1/auth/me` fetch. A non-numeric stored timestamp
(JS `NaN`, whose comparison is false) falls through to the fetch exactly
like an absent slot, so `validTime` models the parsed numeric value. -/
def handleAuth (pathname : String) (userInfo : Option String)
    (validTime : Option Int) (nowMs : Int) (meUser : Option String) :
    AuthCheckState :=
  if pathname == "/login" then
    { fetchedMe := false, isLogin := true, redirectedToLogin := false }
  else
    match userInfo, validTime with
    | some _, some stored =>
      if nowMs - stored < 30 * 24 * 60 * 60 * 1000 then
        { fetchedMe := false, isLogin := true, redirectedToLogin := false }
      else
        handleAuthFetch meUser
    | _, _ => handleAuthFetch meUser

/-- A schema object touched by the v0_8_0 auth migration scripts. -/
inductive SqlObject where
  | table (name : String)
  | index (name : String)
deriving DecidableEq, Repr

/-- The objects created by `auth_tables_up.sql`, in script order: the four
`CREATE TABLE` statements (lines 4, 15, 35, 49) followed by the eight
`CREATE INDEX` statements (lines 90-97). -/
def upCreates : List SqlObject :=
  [ .table "dbgpt_serve_auth_roles",
    .table "dbgpt_serve_auth_users",
    .table "dbgpt_serve_auth_user_db_access",
    .table "dbgpt_serve_auth_sessions",
    .index "idx_users_username",
    .index "idx_users_email",
    .index "idx_users_role_id",
    .index "idx_user_db_access_user_id",
    .index "idx_user_db_access_db_name",
    .index "idx_sessions_session_id",
    .index "idx_sessions_user_id",
    .index "idx_sessions_expires_at" ]

/-- The objects dropped by `auth_tables_down.sql`, in script order: the
eight `DROP INDEX` statements (lines 4-11) followed by the four
`DROP TABLE` statements (lines 14-17). -/
def downDrops : List SqlObject :=
  [ .index "idx_sessions_expires_at",
    .index "idx_sessions_user_id",
    .index "idx_sessions_session_id",
    .index "idx_user_db_access_db_name",
    .index "idx_user_db_access_user_id",
    .index "idx_users_role_id",
    .index "idx_users_email",
    .index "idx_users_username",
    .table "dbgpt_serve_auth_sessions",
    .table "dbgpt_serve_auth_user_db_access",
    .table "dbgpt_serve_auth_users",
    .table "dbgpt_serve_auth_roles" ]

/-- The tables each auth table references through a `FOREIGN KEY` clause in
`auth_tables_up.sql` (lines 31, 44-45, 60), in clause order. -/
def tableFkRefs : String → List String
  | "dbgpt_serve_auth_users" => ["dbgpt_serve_auth_roles"]
  | "dbgpt_serve_auth_user_db_access" =>
      ["dbgpt_serve_auth_users", "dbgpt_serve_auth_users"]
  | "dbgpt_serve_auth_sessions" => ["dbgpt_serve_auth_users"]
  | _ => []

/-- The table names of a list of schema objects, in order. -/
def tableNames (objs : List SqlObject) : List String :=
  objs.filterMap (fun o => match o with | .table n => some n | .index _ => none)

/-- The index names of a list of schema objects, in order. -/
def indexNames (objs : List SqlObject) : List String :=
  objs.filterMap (fun o => match o with | .index n => some n | .table _ => none)

/-- C1: on the admin user-management page, for every ok response of
`/api/v1/auth/me`, the page is admitted (and only then loads user data)
iff the authenticated user satisfies `is_superuser` OR the `admin`
capability flag of their permissions; a user with neither is sent away
with the access error before any data is loaded. -/
theorem admin_access_iff_superuser_or_admin_flag
    (user : Option MeUser) (perms : Option Permissions) :
    (checkAdminAccess (.response true user perms) = .loadData
      ↔ (optUserSuper user = true ∨ optPermsAdmin perms = true)) ∧
    (optUserSuper user = false → optPermsAdmin perms = false →
      checkAdminAccess (.response true user perms)
        = .redirectHome "Admin access required") := by
  constructor
  · cases hu : optUserSuper user <;> cases hp : optPermsAdmin perms <;>
      simp_all [checkAdminAccess, optUserSuper, optPermsAdmin]
  · intro hu hp
    simp_all [checkAdminAccess, optUserSuper, optPermsAdmin]

/-- Witness for C1: a concrete authenticated user with neither flag is
rejected with the access error. -/
theorem admin_access_iff_superuser_or_admin_flag_witness :
    checkAdminAccess (.response true (some ⟨false⟩) (some userRolePermissions))
      = .redirectHome "Admin access required" :=
  (admin_access_iff_superuser_or_admin_flag (some ⟨false⟩)
    (some userRolePermissions)).2 rfl rfl

/-- C7: the admin page reacts differently to Forbidden and Unauthorized:
an authenticated (ok response) user lacking both flags gets the
`Admin access required` error and is sent to `/`, while a non-ok response
or a failed fetch sends the caller to `/login`; the two outcomes are
distinct. -/
theorem forbidden_distinct_from_unauthorized
    (user : Option MeUser) (perms : Option Permissions) :
    (optUserSuper user = false → optPermsAdmin perms = false →
      checkAdminAccess (.response true user perms)
        = .redirectHome "Admin access required") ∧
    checkAdminAccess (.response false user perms) = .redirectLogin ∧
    checkAdminAccess .fetchError = .redirectLogin ∧
    (AdminCheckOutcome.redirectHome "Admin access required"
      ≠ AdminCheckOutcome.redirectLogin) := by
  refine ⟨?_, rfl, rfl, by decide⟩
  intro hu hp
  simp_all [checkAdminAccess, optUserSuper, optPermsAdmin]

/-- Witness for C7: the concrete authenticated non-admin outcome. -/
theorem forbidden_distinct_from_unauthorized_witness :
    checkAdminAccess (.response true (some ⟨false⟩) (some userRolePermissions))
        = .redirectHome "Admin access required" ∧
    checkAdminAccess (.response false (some ⟨false⟩) (some userRolePermissions))
        = .redirectLogin :=
  ⟨(forbidden_distinct_from_unauthorized (some ⟨false⟩)
      (some userRolePermissions)).1 rfl rfl,
   (forbidden_distinct_from_unauthorized (some ⟨false⟩)
      (some userRolePermissions)).2.1⟩

/-- C2: the effective permission set of any role-`user` account is
`{chat:true, explore:true, construct:false, admin:false}` and that of any
role-`admin` account is `{chat:true, explore:true, construct:true,
admin:true}`; `requireCapability` for `construct` fails `Forbidden` for
the former and succeeds for the latter; and the two bootstrap-seeded role
rows carry exactly these four-flag records. -/
theorem role_permission_matrix (u : AuthUser) :
    (u.roleName = "user" →
      effectivePermissions u = some
        { chat := true, explore := true, construct := false, admin := false } ∧
      requireCapability u .construct = .error .forbidden) ∧
    (u.roleName = "admin" →
      effectivePermissions u = some
        { chat := true, explore := true, construct := true, admin := true } ∧
      requireCapability u .construct = .ok ()) ∧
    seededRoles.map (·.permissions) =
      [ { chat := true, explore := true, construct := false, admin := false },
        { chat := true, explore := true, construct := true, admin := true } ] := by
  refine ⟨?_, ?_, by decide⟩ <;> intro h <;>
    simp [effectivePermissions, requireCapability, findRole, seededRoles, h,
      userRolePermissions, adminRolePermissions, hasCapability]

/-- Witness for C2: a concrete role-`user` account is denied `construct`
and a concrete role-`admin` account is allowed it. -/
theorem role_permission_matrix_witness :
    requireCapability
      ⟨2, "alice", "alice@x.com", "h", "s", none, true, false, "user"⟩
      .construct = .error .forbidden ∧
    requireCapability
      ⟨1, "admin", "admin@dbgpt.com", "h", "s", some "Administrator", true,
        true, "admin"⟩ .construct = .ok () :=
  ⟨((role_permission_matrix
      ⟨2, "alice", "alice@x.com", "h", "s", none, true, false, "user"⟩).1
        rfl).2,
   ((role_permission_matrix
      ⟨1, "admin", "admin@dbgpt.com", "h", "s", some "Administrator", true,
        true, "admin"⟩).2.1 rfl).2⟩

/-- C10: the down script drops exactly the objects the up script creates —
same multiset, eight indexes and four tables — and drops the tables in
reverse creation order, which is reverse foreign-key dependency order:
no table still to be dropped references an already-dropped one. -/
theorem migration_round_trip :
    downDrops.Perm upCreates ∧
    tableNames downDrops = (tableNames upCreates).reverse ∧
    (indexNames downDrops).length = 8 ∧
    (tableNames downDrops).length = 4 ∧
    List.Pairwise (fun a b => a ∉ tableFkRefs b) (tableNames downDrops) := by
  refine ⟨by decide, by decide, by decide, by decide, by decide⟩

/-- Every hex character of a value below 16 is a lowercase hex digit. -/
theorem isLowerHexDigit_hexDigitChar : ∀ n < 16, isLowerHexDigit (hexDigitChar n) = true := by
  decide

/-- The hex encoding of a byte list has two characters per byte. -/
theorem hexEncode_length (bytes : List Nat) :
    ((bytes.map hexEncodeByte).flatten).length = 2 * bytes.length := by
  induction bytes with
  | nil => rfl
  | cons b bs ih =>
    simp only [List.map_cons, List.flatten_cons, List.length_append, ih,
      hexEncodeByte, List.length_cons, List.length_nil]
    omega

/-- Every character of the hex encoding of genuine bytes is a lowercase
hex digit. -/
theorem hexEncode_all_hex (bytes : List Nat) (h : ∀ b ∈ bytes, b < 256) :
    ((bytes.map hexEncodeByte).flatten).all isLowerHexDigit = true := by
  induction bytes with
  | nil => rfl
  | cons b bs ih =>
    have hb : b < 256 := h b (List.mem_cons_self b bs)
    have h1 : isLowerHexDigit (hexDigitChar (b / 16)) = true :=
      isLowerHexDigit_hexDigitChar (b / 16) (by omega)
    have h2 : isLowerHexDigit (hexDigitChar (b % 16)) = true :=
      isLowerHexDigit_hexDigitChar (b % 16) (by omega)
    have hrest : ∀ x ∈ bs, x < 256 := fun x hx => h x (List.mem_cons_of_mem b hx)
    simp only [List.map_cons, List.flatten_cons, List.all_append, hexEncodeByte,
      List.all_cons, List.all_nil, h1, h2, ih hrest, Bool.and_self, Bool.and_true]

/-- The hex encoding of any 256-bit digest is a valid 64-character
lowercase hex string. -/
theorem isHexSha256_hexEncode (bytes : List Nat) (h : isSha256Digest bytes = true) :
    isHexSha256 (hexEncode bytes) = true := by
  simp only [isSha256Digest, Bool.and_eq_true, beq_iff_eq, List.all_eq_true,
    decide_eq_true_eq] at h
  obtain ⟨hlen, hbs⟩ := h
  have h1 : (hexEncode bytes).length = 64 := by
    show ((bytes.map hexEncodeByte).flatten).length = 64
    rw [hexEncode_length, hlen]
  have h2 : (hexEncode bytes).data.all isLowerHexDigit = true :=
    hexEncode_all_hex bytes hbs
  simp only [isHexSha256, h1, h2, Bool.and_true, beq_self_eq_true]

/-- C3: the seeded admin `password_hash` literal is not a valid
hex-encoded SHA-256 digest (not 64 characters over 0-9a-f), so for every
salt it cannot be the hex encoding of any 256-bit digest the stated
derivation produces, and password verification of the documented default
password `dbgpt2024` against it fails. -/
theorem seeded_admin_hash_not_derivable :
    isHexSha256 seededAdminPasswordHash = false ∧
    (∀ kdf : String → String → List Nat,
      (∀ pw salt, isSha256Digest (kdf pw salt) = true) →
      ∀ salt,
        hexEncode (kdf seededAdminPassword salt) ≠ seededAdminPasswordHash ∧
        verifyPassword kdf seededAdminPassword salt seededAdminPasswordHash
          = false) := by
  have hbad : isHexSha256 seededAdminPasswordHash = false := by decide
  refine ⟨hbad, fun kdf hk salt => ?_⟩
  have hx := isHexSha256_hexEncode _ (hk seededAdminPassword salt)
  have hne : hexEncode (kdf seededAdminPassword salt) ≠ seededAdminPasswordHash := by
    intro he
    rw [he, hbad] at hx
    exact Bool.false_ne_true hx
  refine ⟨hne, ?_⟩
  simpa [verifyPassword] using hne

/-- Witness for C3: verification fails at a concrete stand-in derivation
(the all-zero digest) and the seeded salt. -/
theorem seeded_admin_hash_not_derivable_witness :
    verifyPassword (fun _ _ => List.replicate 32 0) seededAdminPassword
      seededAdminSalt seededAdminPasswordHash = false := by
  have hdig : isSha256Digest (List.replicate 32 0) = true := by decide
  exact (seeded_admin_hash_not_derivable.2 (fun _ _ => List.replicate 32 0)
    (fun _ _ => hdig) seededAdminSalt).2

/-- When stored signed tokens are pairwise distinct, the lookup inside
`validate` finds exactly the session owning the presented token. -/
theorem find_session (store : List SessionRow) (s : SessionRow)
    (hs : s ∈ store)
    (hu : store.Pairwise (fun a b => a.jwt_token ≠ b.jwt_token)) :
    store.find? (fun t => t.jwt_token == s.jwt_token) = some s := by
  induction store with
  | nil => cases hs
  | cons a as ih =>
    rcases List.mem_cons.mp hs with h | h
    · subst h
      simp [List.find?_cons_of_pos]
    · have hpc := List.pairwise_cons.mp hu
      have hne : a.jwt_token ≠ s.jwt_token := hpc.1 s h
      rw [List.find?_cons_of_neg _ (by simpa using hne)]
      exact ih h hpc.2

/-- C4: validation of a stored session succeeds (returning the owning
user) iff the session is active and the instant is strictly before
`expires_at`; at or after the expiry instant, or once deactivated, it
fails `Unauthorized`; a token matching no stored session also fails
`Unauthorized`. Stored tokens are assumed pairwise distinct (each signed
token embeds its unique session id). -/
theorem session_validate_characterization (store : List SessionRow)
    (s : SessionRow) (now : Nat) (hs : s ∈ store)
    (hu : store.Pairwise (fun a b => a.jwt_token ≠ b.jwt_token)) :
    (validate store s.jwt_token now = .ok s.user_id
      ↔ (s.is_active = true ∧ now < s.expires_at)) ∧
    (s.expires_at ≤ now →
      validate store s.jwt_token now = .error .unauthorized) ∧
    (s.is_active = false →
      validate store s.jwt_token now = .error .unauthorized) ∧
    (∀ tok, (∀ t ∈ store, t.jwt_token ≠ tok) →
      validate store tok now = .error .unauthorized) := by
  have hfind := find_session store s hs hu
  refine ⟨?_, ?_, ?_, ?_⟩
  · rw [validate, hfind]
    by_cases ha : s.is_active = true <;> by_cases he : now < s.expires_at <;>
      simp [ha, he]
  · intro hexp
    rw [validate, hfind]
    simp [Nat.not_lt.mpr hexp]
  · intro hinact
    rw [validate, hfind]
    simp [hinact]
  · intro tok htok
    have hnone : store.find? (fun t => t.jwt_token == tok) = none := by
      rw [List.find?_eq_none]
      intro t ht
      simpa using htok t ht
    rw [validate, hnone]

/-- Witness for C4: a concrete one-session store, validated strictly
before its expiry instant. -/
theorem session_validate_characterization_witness :
    validate [⟨"sid1", 7, "tok1", 100, true⟩] "tok1" 50 = .ok 7 :=
  ((session_validate_characterization [⟨"sid1", 7, "tok1", 100, true⟩]
      ⟨"sid1", 7, "tok1", 100, true⟩ 50 (by decide) (by decide)).1).mpr
    ⟨rfl, by decide⟩

/-- C5: a registration whose username or email equals that of an existing
user fails `Conflict` and leaves the user table unchanged — no new row is
created. -/
theorem register_conflict_no_new_row (table : List AuthUser) (u : AuthUser)
    (h : ∃ v ∈ table, v.username = u.username ∨ v.email = u.email) :
    createUser table u = (table, .error .conflict) ∧
    (createUser table u).1.length = table.length := by
  have hb : table.any
      (fun v => v.username == u.username || v.email == u.email) = true := by
    rcases h with ⟨v, hv, hcase⟩
    refine List.any_eq_true.mpr ⟨v, hv, ?_⟩
    rcases hcase with h | h <;> simp [h]
  constructor
  · simp [createUser, hb]
  · simp [createUser, hb]

/-- Witness for C5: registering a second `alice` against a table already
holding one fails `Conflict` with the table unchanged. -/
theorem register_conflict_no_new_row_witness :
    createUser [⟨1, "alice", "alice@x.com", "h1", "s1", none, true, false,
        "user"⟩]
      ⟨2, "alice", "other@x.com", "h2", "s2", none, true, false, "user"⟩
      = ([⟨1, "alice", "alice@x.com", "h1", "s1", none, true, false, "user"⟩],
         .error .conflict) :=
  (register_conflict_no_new_row
    [⟨1, "alice", "alice@x.com", "h1", "s1", none, true, false, "user"⟩]
    ⟨2, "alice", "other@x.com", "h2", "s2", none, true, false, "user"⟩
    ⟨⟨1, "alice", "alice@x.com", "h1", "s1", none, true, false, "user"⟩,
      List.mem_singleton_self _, Or.inl rfl⟩).1

/-- Counting active grant rows of a pair factors through the pair's rows. -/
theorem activeGrantCount_eq (l : List GrantRow) (uid : Nat) (db : String) :
    activeGrantCount l uid db
      = ((pairRows l uid db).filter (·.is_active)).length := by
  unfold activeGrantCount pairRows
  rw [List.filter_filter]
  congr 1
  apply List.filter_congr
  intro r _
  cases h1 : (r.user_id == uid) <;> cases h2 : (r.db_name == db) <;>
    cases h3 : r.is_active <;> simp [h1, h2, h3]

/-- The reactivation step of `grant` never changes which `(user_id,
db_name)` pair a row belongs to. -/
theorem pair_pred_reactivate (granteeId : Nat) (dbName : String) (r : GrantRow) :
    ((if r.user_id == granteeId && r.db_name == dbName then
        { r with is_active := true } else r).user_id == granteeId &&
     (if r.user_id == granteeId && r.db_name == dbName then
        { r with is_active := true } else r).db_name == dbName)
      = (r.user_id == granteeId && r.db_name == dbName) := by
  by_cases h : (r.user_id == granteeId && r.db_name == dbName) = true
  · simp [h]
  · simp [h]

/-- Postcondition of a successful `grant` on a table respecting the unique
constraint for the pair: the pair is left with exactly one row, and that
row is active — whether the call inserted or reactivated. -/
theorem grant_success_pairRows (perms : Permissions) (userIds : List Nat)
    (table : List GrantRow) (granterId granteeId : Nat) (dbName : String)
    (hadmin : perms.admin = true) (hexists : granteeId ∈ userIds)
    (huniq : (pairRows table granteeId dbName).length ≤ 1) :
    ∃ r : GrantRow,
      pairRows (grant perms userIds table granterId granteeId dbName).1
        granteeId dbName = [r] ∧ r.is_active = true := by
  have hcontains : userIds.contains granteeId = true := by
    simpa using hexists
  by_cases hany :
      table.any (fun r => r.user_id == granteeId && r.db_name == dbName) = true
  · have hT : (grant perms userIds table granterId granteeId dbName).1
        = table.map (fun r =>
            if r.user_id == granteeId && r.db_name == dbName then
              { r with is_active := true }
            else r) := by
      simp [grant, hadmin, hcontains, hexists, hany]
    obtain ⟨x, hx, hpx⟩ := List.any_eq_true.mp hany
    have hmemx : x ∈ pairRows table granteeId dbName :=
      List.mem_filter.mpr ⟨hx, hpx⟩
    have hlen1 : (pairRows table granteeId dbName).length = 1 := by
      have := List.length_pos.mpr (List.ne_nil_of_mem hmemx)
      omega
    obtain ⟨r0, hr0⟩ := List.length_eq_one.mp hlen1
    have hpr0 : (r0.user_id == granteeId && r0.db_name == dbName) = true := by
      have : r0 ∈ pairRows table granteeId dbName := by
        rw [hr0]; exact List.mem_singleton_self r0
      exact (List.mem_filter.mp this).2
    refine ⟨{ r0 with is_active := true }, ?_, rfl⟩
    rw [hT]
    show (List.map _ table).filter _ = _
    rw [List.filter_map]
    have hcongr : table.filter
        ((fun r => r.user_id == granteeId && r.db_name == dbName) ∘
          (fun r => if r.user_id == granteeId && r.db_name == dbName then
              { r with is_active := true } else r))
        = table.filter (fun r => r.user_id == granteeId && r.db_name == dbName) := by
      apply List.filter_congr
      intro r _
      exact pair_pred_reactivate granteeId dbName r
    rw [hcongr]
    have hfr : table.filter (fun r => r.user_id == granteeId && r.db_name == dbName)
        = [r0] := hr0
    rw [hfr]
    simp only [List.map_cons, List.map_nil]
    rw [if_pos hpr0]
  · have hT : (grant perms userIds table granterId granteeId dbName).1
        = table ++ [{ user_id := granteeId, db_name := dbName,
                      granted_by := granterId, is_active := true }] := by
      simp [grant, hadmin, hcontains, hexists, hany]
    have hnone : ∀ r ∈ table,
        ¬((r.user_id == granteeId && r.db_name == dbName) = true) := by
      intro r hr hp
      exact hany (List.any_eq_true.mpr ⟨r, hr, hp⟩)
    refine ⟨{ user_id := granteeId, db_name := dbName,
              granted_by := granterId, is_active := true }, ?_, rfl⟩
    rw [hT]
    show (table ++ _).filter _ = _
    rw [List.filter_append]
    rw [List.filter_eq_nil_iff.mpr hnone]
    simp

/-- C6: for an admin granter, an existing grantee and any database name,
granting the same `(user, db)` pair twice leaves exactly one active grant
row — the second call reactivates rather than duplicates — given the
table respects the unique `(user_id, db_name)` constraint. -/
theorem grant_twice_single_active_row (perms : Permissions) (userIds : List Nat)
    (table : List GrantRow) (granterId granteeId : Nat) (dbName : String)
    (hadmin : perms.admin = true) (hexists : granteeId ∈ userIds)
    (huniq : grantTableUnique table) :
    activeGrantCount
      (grant perms userIds
        (grant perms userIds table granterId granteeId dbName).1
        granterId granteeId dbName).1 granteeId dbName = 1 := by
  obtain ⟨r1, h1, hact1⟩ := grant_success_pairRows perms userIds table granterId
    granteeId dbName hadmin hexists (huniq granteeId dbName)
  obtain ⟨r2, h2, hact2⟩ := grant_success_pairRows perms userIds _ granterId
    granteeId dbName hadmin hexists (by rw [h1]; simp)
  rw [activeGrantCount_eq, h2]
  simp [hact2]

/-- Witness for C6: an admin (id 1) granting user 2 access to `sales_db`
twice on an initially empty grant table leaves one active row. -/
theorem grant_twice_single_active_row_witness :
    activeGrantCount
      (grant adminRolePermissions [2]
        (grant adminRolePermissions [2] [] 1 2 "sales_db").1
        1 2 "sales_db").1 2 "sales_db" = 1 :=
  grant_twice_single_active_row adminRolePermissions [2] [] 1 2 "sales_db"
    rfl (List.mem_singleton_self 2) (fun _ _ => Nat.zero_le 1)

/-- `handleLogin` never reads the signed token of the login response: its
effects are invariant under replacing the token field. -/
theorem handleLogin_token_invariant (result : LoginResult) (t : Option String)
    (nowMs : Nat) (rq : Option String) :
    handleLogin (withToken result t) nowMs rq = handleLogin result nowMs rq := by
  obtain ⟨rs, rd⟩ := result
  cases rd with
  | none => rfl
  | some d =>
    obtain ⟨ds, du, dsid, dt, dm⟩ := d
    cases rs <;> cases ds <;> cases dsid <;> rfl

/-- C8: on a successful login response carrying a session id, the client
sets exactly one cookie — named `dbgpt_auth_session`, holding the opaque
session identifier, with `max-age` of exactly 2592000 seconds (30 days) —
and the signed token is never persisted: the performed effects do not
depend on the token field at all. -/
theorem login_stores_session_cookie_only (result : LoginResult)
    (d : LoginData) (sid : String) (nowMs : Nat) (rq : Option String)
    (hres : result.success = true) (hd : result.data = some d)
    (hds : d.success = true) (hsid : d.session_id = some sid) :
    (handleLogin result nowMs rq).filter
        (fun e => match e with | .setCookie _ _ _ _ => true | _ => false)
      = [.setCookie "dbgpt_auth_session" sid "/" 2592000] ∧
    (∀ t, handleLogin (withToken result t) nowMs rq
      = handleLogin result nowMs rq) := by
  refine ⟨?_, fun t => handleLogin_token_invariant result t nowMs rq⟩
  obtain ⟨rs, rd⟩ := result
  obtain ⟨ds, du, dsid, dt, dm⟩ := d
  have hrs : rs = true := hres
  have hrd : rd = some ⟨ds, du, dsid, dt, dm⟩ := hd
  have hds2 : ds = true := hds
  have hsid2 : dsid = some sid := hsid
  subst hrs hrd hds2 hsid2
  rfl

/-- Witness for C8: a concrete successful login response produces exactly
the session cookie with the 30-day max age. -/
theorem login_stores_session_cookie_only_witness :
    (handleLogin ⟨true, some ⟨true, "u", some "sid123", some "tok", none⟩⟩
        5 none).filter
        (fun e => match e with | .setCookie _ _ _ _ => true | _ => false)
      = [.setCookie "dbgpt_auth_session" "sid123" "/" 2592000] :=
  (login_stores_session_cookie_only
    ⟨true, some ⟨true, "u", some "sid123", some "tok", none⟩⟩
    ⟨true, "u", some "sid123", some "tok", none⟩ "sid123" 5 none
    rfl rfl rfl rfl).1

/-- C9: on a non-`/login` route, when localStorage holds user info with a
validity timestamp strictly under 30 days old, the client marks itself
logged in without issuing any request to `/api/v1/auth/me` — the outcome
is the same for every possible server-side answer, so a server-side
revocation, deactivation or expiry is not observed. -/
theorem cached_auth_skips_server (pathname : String) (info : String)
    (stored nowMs : Int) (meUser : Option String)
    (hpath : pathname ≠ "/login")
    (hfresh : nowMs - stored < 30 * 24 * 60 * 60 * 1000) :
    handleAuth pathname (some info) (some stored) nowMs meUser
      = { fetchedMe := false, isLogin := true, redirectedToLogin := false } := by
  have hbeq : (pathname == "/login") = false := by
    simpa using hpath
  have hfresh2 : nowMs - stored < 2592000000 := by omega
  simp [handleAuth, hbeq, hfresh2]

/-- Witness for C9: a fresh cached login on `/chat` stays logged in with
no fetch even though the server (here: `none`) would reject the session. -/
theorem cached_auth_skips_server_witness :
    handleAuth "/chat" (some "u") (some 0) 1000 none
      = { fetchedMe := false, isLogin := true, redirectedToLogin := false } :=
  cached_auth_skips_server "/chat" "u" 0 1000 none (by decide) (by decide)
